import Mathlib

/-!
Verification development for the NFL anytime-TD team-analysis service
(`src/main.py`).  The core pipeline — red-zone / all-drive aggregation of a
play table, league baseline averages, per-matchup percentage boosts, and the
week-matchup enumeration — is embedded shallowly below.

Modelling conventions, chosen to match the Python code exactly:
* A pandas play table is a `List Play`.  Missing (`NaN`) team codes and drive
  identifiers are `Option` fields; `yardline_100`, `week` and the binary
  `touchdown` flag are naturals (the source data stores them as numbers; no
  claim depends on fractional values).
* `groupby`/`unique` key collections are `Finset`s of keys: pandas iterates
  each distinct key exactly once, and every aggregate the code produces
  (counts, sums, maxima) is order-independent, so the set-of-keys view is
  faithful.
* Python `round(x, k)` (round-half-to-even on a value that is exact here) is
  `round1` / `round2` over `ℚ`.
* A Python float `NaN` arising from an unguarded `0/0` is modelled as `none`.
-/

/-- Round half to even, the tie-breaking rule of Python `round`. -/
def rhe (x : ℚ) : ℤ :=
  if x - ⌊x⌋ < 1/2 then ⌊x⌋
  else if 1/2 < x - ⌊x⌋ then ⌊x⌋ + 1
  else if ⌊x⌋ % 2 = 0 then ⌊x⌋ else ⌊x⌋ + 1

/-- Python `round(x, 1)`. -/
def round1 (x : ℚ) : ℚ := rhe (x * 10) / 10

/-- Python `round(x, 2)`. -/
def round2 (x : ℚ) : ℚ := rhe (x * 100) / 100

theorem rhe_lb (x : ℚ) : ⌊x⌋ ≤ rhe x := by
  unfold rhe; split_ifs <;> omega

theorem rhe_ub (x : ℚ) : rhe x ≤ ⌊x⌋ + 1 := by
  unfold rhe; split_ifs <;> omega

theorem rhe_mono {x y : ℚ} (h : x ≤ y) : rhe x ≤ rhe y := by
  rcases lt_or_eq_of_le (Int.floor_le_floor h : ⌊x⌋ ≤ ⌊y⌋) with hlt | heq
  · have h1 := rhe_ub x
    have h2 := rhe_lb y
    omega
  · unfold rhe
    rw [← heq]
    have hfr : x - (⌊x⌋ : ℚ) ≤ y - (⌊x⌋ : ℚ) := by linarith
    split_ifs <;> first | omega | linarith

theorem round1_mono {x y : ℚ} (h : x ≤ y) : round1 x ≤ round1 y := by
  unfold round1
  have hr : rhe (x * 10) ≤ rhe (y * 10) := rhe_mono (by linarith)
  have : ((rhe (x * 10) : ℚ)) ≤ (rhe (y * 10) : ℚ) := by exact_mod_cast hr
  linarith

theorem rhe_intCast (n : ℤ) : rhe (n : ℚ) = n := by
  unfold rhe
  norm_num

theorem round1_intCast (n : ℤ) : round1 (n : ℚ) = n := by
  unfold round1
  rw [show ((n : ℚ) * 10) = ((n * 10 : ℤ) : ℚ) by norm_cast, rhe_intCast]
  push_cast
  ring

theorem round1_natCast (n : ℕ) : round1 (n : ℚ) = n := by
  rw [show ((n : ℚ)) = ((n : ℤ) : ℚ) by norm_cast, round1_intCast]

theorem round1_zero : round1 0 = 0 := by
  rw [show (0 : ℚ) = ((0 : ℤ) : ℚ) by norm_num, round1_intCast]

/-- One row of a play-by-play table (the columns `src/main.py` reads). -/
structure Play where
  game_id : String
  posteam : Option String
  defteam : Option String
  fixed_drive : Option Nat
  yardline_100 : Nat
  touchdown : Nat
  week : Nat
deriving DecidableEq

/-- Embeds `reg_season = df[df['week'] <= 18] if year_label == "2024" else df`
(src/main.py lines 152-155 and 215-218). -/
def regSeason (df : List Play) (year_label : String) : List Play :=
  if year_label = "2024" then df.filter (fun p => p.week ≤ 18) else df

/-- Embeds `rz_drives = reg[(reg['yardline_100'] <= 20) & (reg['fixed_drive'].notna())]`. -/
def rzPlays (df : List Play) : List Play :=
  df.filter (fun p => decide (p.yardline_100 ≤ 20) && p.fixed_drive.isSome)

/-- pandas `max()` of a column: the maximum of a nonempty list (0 for empty,
but every group the code reduces is nonempty). -/
def listMaxD : List ℕ → ℕ
  | [] => 0
  | x :: xs => xs.foldl max x

theorem foldl_max_init_le (xs : List ℕ) (x : ℕ) : x ≤ xs.foldl max x := by
  induction xs generalizing x with
  | nil => exact le_refl x
  | cons y ys ih => exact le_trans (le_max_left x y) (ih (max x y))

theorem foldl_max_mem_le {a : ℕ} {xs : List ℕ} (x : ℕ) (h : a ∈ xs) :
    a ≤ xs.foldl max x := by
  induction xs generalizing x with
  | nil => cases h
  | cons y ys ih =>
    rcases List.mem_cons.mp h with rfl | hmem
    · exact le_trans (le_max_right x a) (foldl_max_init_le ys (max x a))
    · exact ih (max x y) hmem

theorem foldl_max_mem (xs : List ℕ) (x : ℕ) :
    xs.foldl max x = x ∨ xs.foldl max x ∈ xs := by
  induction xs generalizing x with
  | nil => exact Or.inl rfl
  | cons y ys ih =>
    rw [List.foldl_cons]
    rcases ih (max x y) with h | h
    · rw [h]
      rcases max_choice x y with hc | hc
      · exact Or.inl hc
      · refine Or.inr ?_
        rw [hc]
        exact List.mem_cons_self y ys
    · exact Or.inr (List.mem_cons_of_mem y h)

theorem listMaxD_mem {l : List ℕ} (h : l ≠ []) : listMaxD l ∈ l := by
  match l with
  | [] => exact absurd rfl h
  | x :: xs =>
    show xs.foldl max x ∈ x :: xs
    rcases foldl_max_mem xs x with heq | hmem
    · rw [heq]; exact List.mem_cons_self x xs
    · exact List.mem_cons_of_mem x hmem

theorem le_listMaxD {a : ℕ} {l : List ℕ} (h : a ∈ l) : a ≤ listMaxD l := by
  match l with
  | x :: xs =>
    rcases List.mem_cons.mp h with rfl | hmem
    · exact foldl_max_init_le xs a
    · exact foldl_max_mem_le x hmem

/-- Behaviour of the per-drive `max` on binary touchdown flags. -/
theorem listMaxD_binary {l : List ℕ} (hne : l ≠ [])
    (hb : ∀ x ∈ l, x = 0 ∨ x = 1) :
    (listMaxD l = 0 ∨ listMaxD l = 1) ∧ (listMaxD l = 1 ↔ 1 ∈ l) := by
  have hm := listMaxD_mem hne
  refine ⟨hb _ hm, ?_, ?_⟩
  · intro h1
    rw [h1] at hm
    exact hm
  · intro h1
    have hle := le_listMaxD h1
    rcases hb _ hm with h0 | h0 <;> omega

/-- The `(game_id, fixed_drive)` grouping key of a play (`None` drive ids are
dropped, as pandas `groupby` drops `NaN` keys). -/
def playDriveKey (p : Play) : Option (String × Nat) :=
  p.fixed_drive.map (fun d => (p.game_id, d))

/-- Distinct `(game_id, fixed_drive)` keys of a play list. -/
def driveKeySet (l : List Play) : Finset (String × Nat) :=
  (l.filterMap playDriveKey).toFinset

/-- Embeds `groupby(['game_id','fixed_drive']).size()` for one key. -/
def keyCount (l : List Play) (k : String × Nat) : Nat :=
  l.countP (fun p => decide (playDriveKey p = some k))

/-- Embeds `play_counts[play_counts > 1]`: the keys kept by the 2+ plays filter. -/
def multiPlayKeys (l : List Play) : Finset (String × Nat) :=
  (driveKeySet l).filter (fun k => 1 < keyCount l k)

/-- Whether a play's drive key survives the 2+ plays filter. -/
def inMulti (l : List Play) (p : Play) : Bool :=
  (playDriveKey p).elim false (fun k => decide (k ∈ multiPlayKeys l))

/-- Embeds `filtered_drives = team_rz[team_rz.set_index([...]).index.isin(multi_play_drives.index)]`. -/
def filteredDrives (l : List Play) : List Play :=
  l.filter (inMulti l)

/-- The plays of one `(game_id, fixed_drive)` group. -/
def drivePlays (l : List Play) (k : String × Nat) : List Play :=
  l.filter (fun p => decide (playDriveKey p = some k))

/-- Embeds the per-group touchdown aggregation, a `max` over the group. -/
def driveTD (l : List Play) (k : String × Nat) : Nat :=
  listMaxD ((drivePlays l k).map (fun p => p.touchdown))

/-- The groups of `drive_summary` (the groupby keys of the filtered plays). -/
def rzSummaryKeys (l : List Play) : Finset (String × Nat) :=
  driveKeySet (filteredDrives l)

/-- Embeds `team_rz = rz_drives[rz_drives['posteam'] == team]`. -/
def offTeamRZ (rz : List Play) (t : String) : List Play :=
  rz.filter (fun p => decide (p.posteam = some t))

/-- Embeds `team_rz = rz_drives[rz_drives['defteam'] == team]`. -/
def defTeamRZ (rz : List Play) (t : String) : List Play :=
  rz.filter (fun p => decide (p.defteam = some t))

/-- One team's red-zone record (`rz_drives`/`rz_tds`/`rz_td_rate`, and the
same shape for the defensive `_faced`/`_allowed`/`_allow_rate` fields). -/
structure RZStats where
  drives : Nat
  tds : Nat
  rate : ℚ
deriving DecidableEq

/-- The body of the per-team red-zone aggregation in
`calculate_rz_stats_with_filter` (src/main.py lines 164-179 and 186-201),
applied to the plays of one team.  Returns `none` when the team would not be
a key of the Python result dict (no plays at all, or no 2+-play drives). -/
def rzStatsOf (l : List Play) : Option RZStats :=
  if (multiPlayKeys l).card = 0 then none
  else
    let fd := filteredDrives l
    let ks := rzSummaryKeys l
    let drives := ks.card
    let tds := ks.sum (fun k => driveTD fd k)
    some ⟨drives, tds, if 0 < drives then round1 ((tds : ℚ) / (drives : ℚ) * 100) else 0⟩

/-- Offense half of `calculate_rz_stats_with_filter` as a lookup. -/
def rz_offense_stats (df : List Play) (year_label t : String) : Option RZStats :=
  rzStatsOf (offTeamRZ (rzPlays (regSeason df year_label)) t)

/-- Defense half of `calculate_rz_stats_with_filter` as a lookup. -/
def rz_defense_stats (df : List Play) (year_label t : String) : Option RZStats :=
  rzStatsOf (defTeamRZ (rzPlays (regSeason df year_label)) t)

/-- Embeds `calculate_rz_stats_with_filter` (both returned dicts, as lookups). -/
def calculate_rz_stats_with_filter (df : List Play) (year_label : String) :
    (String → Option RZStats) × (String → Option RZStats) :=
  (rz_offense_stats df year_label, rz_defense_stats df year_label)

/-- The `(game_id, posteam, fixed_drive)` groupby key (pandas drops rows whose
key contains `NaN`). -/
def playOffKey (p : Play) : Option (String × String × Nat) :=
  match p.posteam, p.fixed_drive with
  | some t, some d => some (p.game_id, t, d)
  | _, _ => none

/-- The `(game_id, defteam, fixed_drive)` groupby key. -/
def playDefKey (p : Play) : Option (String × String × Nat) :=
  match p.defteam, p.fixed_drive with
  | some t, some d => some (p.game_id, t, d)
  | _, _ => none

/-- Distinct `(game_id, posteam, fixed_drive)` groups of `all_drives`. -/
def allOffKeys (reg : List Play) : Finset (String × String × Nat) :=
  (reg.filterMap playOffKey).toFinset

/-- Distinct `(game_id, defteam, fixed_drive)` groups of `all_drives_def`. -/
def allDefKeys (reg : List Play) : Finset (String × String × Nat) :=
  (reg.filterMap playDefKey).toFinset

/-- Embeds `max` of the touchdown flag over one `(game, posteam, drive)` group. -/
def offGroupTD (reg : List Play) (k : String × String × Nat) : Nat :=
  listMaxD ((reg.filter (fun p => decide (playOffKey p = some k))).map (fun p => p.touchdown))

/-- Embeds `max` of the touchdown flag over one `(game, defteam, drive)` group. -/
def defGroupTD (reg : List Play) (k : String × String × Nat) : Nat :=
  listMaxD ((reg.filter (fun p => decide (playDefKey p = some k))).map (fun p => p.touchdown))

/-- One team's all-drives record (`total_drives`/`total_tds`/`total_td_rate`,
and the defensive `_faced`/`_allowed`/`_allow_rate` shape). -/
structure AllStats where
  drives : Nat
  tds : Nat
  rate : ℚ
deriving DecidableEq

/-- The per-team body of `calculate_all_drives_stats`: a team is a key of the
Python dict exactly when it owns at least one group. -/
def allStatsOfKeys (keys : Finset (String × String × Nat))
    (groupTD : String × String × Nat → Nat) : Option AllStats :=
  if keys.card = 0 then none
  else
    let tds := keys.sum groupTD
    some ⟨keys.card, tds, round1 ((tds : ℚ) / (keys.card : ℚ) * 100)⟩

/-- Offense half of `calculate_all_drives_stats` (src/main.py lines 220-229). -/
def all_drives_offense_stats (df : List Play) (year_label t : String) : Option AllStats :=
  let reg := regSeason df year_label
  allStatsOfKeys ((allOffKeys reg).filter (fun k => k.2.1 = t)) (offGroupTD reg)

/-- Defense half of `calculate_all_drives_stats` (src/main.py lines 232-239). -/
def all_drives_defense_stats (df : List Play) (year_label t : String) : Option AllStats :=
  let reg := regSeason df year_label
  allStatsOfKeys ((allDefKeys reg).filter (fun k => k.2.1 = t)) (defGroupTD reg)

/-- Embeds `calculate_all_drives_stats` (both returned dicts, as lookups). -/
def calculate_all_drives_stats (df : List Play) (year_label : String) :
    (String → Option AllStats) × (String → Option AllStats) :=
  (all_drives_offense_stats df year_label, all_drives_defense_stats df year_label)

/-- Embeds `df_2024[df_2024['week'] <= 18]` inside `calculate_league_averages`. -/
def leagueReg (df : List Play) : List Play :=
  df.filter (fun p => p.week ≤ 18)

/-- Embeds `rz_drives['game_id'].unique()`. -/
def rzGames (rz : List Play) : Finset String :=
  (rz.map (fun p => p.game_id)).toFinset

/-- Embeds `rz_drives[rz_drives['game_id'] == game_id]['posteam'].unique()` minus the
`pd.isna(team)` entries skipped by the loop. -/
def rzTeamsInGame (rz : List Play) (g : String) : Finset String :=
  ((rz.filter (fun p => decide (p.game_id = g))).filterMap (fun p => p.posteam)).toFinset

/-- Embeds `team_rz = rz_drives[(game_id == g) & (posteam == t)]`. -/
def teamGameRZ (rz : List Play) (g t : String) : List Play :=
  rz.filter (fun p => decide (p.game_id = g ∧ p.posteam = some t))

/-- Embeds `team_rz_def = rz_drives[(game_id == g) & (defteam == t)]`. -/
def teamGameRZDef (rz : List Play) (g t : String) : List Play :=
  rz.filter (fun p => decide (p.defteam = some t ∧ p.game_id = g))

/-- Drive ids of `l` whose group has 2 or more plays (the league-average
`if len(drive_plays) >= 2` filter). -/
def qualDrives (l : List Play) : Finset Nat :=
  ((l.filterMap (fun p => p.fixed_drive)).toFinset).filter
    (fun d => 2 ≤ l.countP (fun p => decide (p.fixed_drive = some d)))

/-- Embeds `drive_plays['touchdown'].max()` for drive `d` of `l`. -/
def qualDriveTD (l : List Play) (d : Nat) : Nat :=
  listMaxD ((l.filter (fun p => decide (p.fixed_drive = some d))).map (fun p => p.touchdown))

/-- The offensive entries of the `all_rz_drives` list built by the nested
loops of `calculate_league_averages` (src/main.py lines 97-107), as the set
of `(game, team, drive)` triples it appends (each is appended exactly once). -/
def leaguePoolOff (rz : List Play) : Finset (String × String × Nat) :=
  (rzGames rz).biUnion (fun g =>
    (rzTeamsInGame rz g).biUnion (fun t =>
      (qualDrives (teamGameRZ rz g t)).image (fun d => (g, t, d))))

/-- The defensive entries of `all_rz_drives` (src/main.py lines 109-115);
note the defending team still ranges over the game's `posteam` values. -/
def leaguePoolDef (rz : List Play) : Finset (String × String × Nat) :=
  (rzGames rz).biUnion (fun g =>
    (rzTeamsInGame rz g).biUnion (fun t =>
      (qualDrives (teamGameRZDef rz g t)).image (fun d => (g, t, d))))

/-- The `scored_td` value of one pooled offensive entry. -/
def poolTDOff (rz : List Play) (k : String × String × Nat) : Nat :=
  qualDriveTD (teamGameRZ rz k.1 k.2.1) k.2.2

/-- The `scored_td` value of one pooled defensive entry. -/
def poolTDDef (rz : List Play) (k : String × String × Nat) : Nat :=
  qualDriveTD (teamGameRZDef rz k.1 k.2.1) k.2.2

/-- The `league_averages` dict.  The two all-drives fields carry the result
of `sum/len*100` with no zero-length guard (src/main.py lines 127-131):
`none` models the undefined value (`0/0`, a float `NaN`) produced when the
grouped table is empty, while the two red-zone fields are guarded by
`if len(...) > 0 else 0` in the source. -/
structure LeagueAverages where
  rz_scoring : ℚ
  rz_allow : ℚ
  all_drives_scoring : Option ℚ
  all_drives_allow : Option ℚ
deriving DecidableEq

/-- Embeds `calculate_league_averages` (src/main.py lines 86-138) as a function of
the baseline play table the provider returns. -/
def calculate_league_averages (df : List Play) : LeagueAverages :=
  let reg := leagueReg df
  let rz := rzPlays reg
  let pOff := leaguePoolOff rz
  let pDef := leaguePoolDef rz
  let offKeys := allOffKeys reg
  let defKeys := allDefKeys reg
  { rz_scoring := round1 (if 0 < pOff.card then
      ((pOff.sum (poolTDOff rz) : ℕ) : ℚ) / (pOff.card : ℚ) * 100 else 0)
    rz_allow := round1 (if 0 < pDef.card then
      ((pDef.sum (poolTDDef rz) : ℕ) : ℚ) / (pDef.card : ℚ) * 100 else 0)
    all_drives_scoring := if offKeys.card = 0 then none
      else some (round1 (((offKeys.sum (offGroupTD reg) : ℕ) : ℚ) / (offKeys.card : ℚ) * 100))
    all_drives_allow := if defKeys.card = 0 then none
      else some (round1 (((defKeys.sum (defGroupTD reg) : ℕ) : ℚ) / (defKeys.card : ℚ) * 100)) }

/-- Follows the spec's words (league baseline, defensive red-zone family):
the pooled drive-weighted rate over ALL qualifying `(game, defteam, drive)`
groups — sum of per-drive touchdown outcomes over the count of qualifying
drives across all teams, times 100, rounded to 1 decimal, 0.0 on an empty
pool.  Used only to compare the source's behaviour against the claim. -/
def spec_pooled_rz_allow (df : List Play) : ℚ :=
  let rz := rzPlays (leagueReg df)
  let ks := ((rz.filterMap playDefKey).toFinset).filter
    (fun k => 2 ≤ rz.countP (fun p => decide (playDefKey p = some k)))
  round1 (if 0 < ks.card then
    ((ks.sum (fun k => defGroupTD rz k) : ℕ) : ℚ) / (ks.card : ℚ) * 100 else 0)

/-- The current-season snapshot consumed by `calculate_matchup_boosts`: the
four dict lookups restricted to the single rate field the function reads. -/
structure CurrentData where
  offense_rz : String → Option ℚ
  defense_rz : String → Option ℚ
  offense_all : String → Option ℚ
  defense_all : String → Option ℚ

/-- The four `self.league_averages` values as read by
`calculate_matchup_boosts`. -/
structure LeagueAveragesVals where
  rz_scoring : ℚ
  rz_allow : ℚ
  all_drives_scoring : ℚ
  all_drives_allow : ℚ
deriving DecidableEq

/-- Embeds `pct_change = ((cur - avg) / avg * 100) if avg > 0 else 0`, then
`round(pct_change, 1)`. -/
def pctDev (cur avg : ℚ) : ℚ :=
  round1 (if 0 < avg then (cur - avg) / avg * 100 else 0)

/-- The combination step shared by `offense_combined_pct_change` and
`defense_combined_pct_change` (src/main.py lines 404-424): average of the
two deviations when both exist, otherwise the one that exists. -/
def combinePair (a b : Option ℚ) : Option ℚ :=
  match a, b with
  | some x, some y => some (round1 ((x + y) / 2))
  | some x, none => some x
  | none, some y => some y
  | none, none => none

/-- Embeds `total_team_td_advantage_pct` (src/main.py lines 430-437): average when
both combined values exist, HALF of the present one otherwise. -/
def totalFromCombined (a b : Option ℚ) : Option ℚ :=
  match a, b with
  | some x, some y => some (round1 ((x + y) / 2))
  | some x, none => some (round1 (x / 2))
  | none, some y => some (round1 (y / 2))
  | none, none => none

/-- The numeric fields of the result dict of `calculate_matchup_boosts`. -/
structure MatchupBoosts where
  offense_rz_pct_change : Option ℚ
  defense_rz_pct_change : Option ℚ
  offense_all_pct_change : Option ℚ
  defense_all_pct_change : Option ℚ
  offense_combined_pct_change : Option ℚ
  defense_combined_pct_change : Option ℚ
  total_team_td_advantage_pct : Option ℚ
deriving DecidableEq

/-- Embeds `calculate_matchup_boosts` (src/main.py lines 328-449), restricted to the
numeric analysis fields; a team absent from a snapshot dict yields `None`
for that family and the computation continues. -/
def calculate_matchup_boosts (cd : CurrentData) (la : LeagueAveragesVals)
    (offense_team defense_team : String) : MatchupBoosts :=
  let orz := (cd.offense_rz offense_team).map (fun c => pctDev c la.rz_scoring)
  let drz := (cd.defense_rz defense_team).map (fun c => pctDev c la.rz_allow)
  let oall := (cd.offense_all offense_team).map (fun c => pctDev c la.all_drives_scoring)
  let dall := (cd.defense_all defense_team).map (fun c => pctDev c la.all_drives_allow)
  let oc := combinePair orz oall
  let dc := combinePair drz dall
  ⟨orz, drz, oall, dall, oc, dc, totalFromCombined oc dc⟩

/-- One row of the schedule table (`gameday` is `none` for a missing date,
already formatted as `'%Y-%m-%d'` otherwise). -/
structure ScheduleRow where
  away_team : String
  home_team : String
  gameday : Option String
  week : Nat
deriving DecidableEq

/-- One matchup dict produced by `get_week_matchups`. -/
structure Matchup where
  away_team : String
  home_team : String
  gameday : String
  week : Nat
deriving DecidableEq

/-- The dict built for one schedule row (src/main.py lines 314-319). -/
def matchupOfRow (g : ScheduleRow) : Matchup :=
  ⟨g.away_team, g.home_team, g.gameday.getD "TBD", g.week⟩

/-- Embeds `get_week_matchups` (src/main.py lines 296-326) for a loaded schedule
and an explicit week number: rows with `week == week_num`, the empty week
returning `[]` (after a logged warning). -/
def get_week_matchups (sched : List ScheduleRow) (week_num : Nat) : List Matchup :=
  let week_games := sched.filter (fun g => g.week == week_num)
  if week_games.isEmpty then [] else week_games.map matchupOfRow

/-- The fields `NFLTDBoostCalculator.__init__` assigns. -/
structure CalculatorState where
  performance_year : Int
  baselines_2024 : List (String × RZStats)
  current_data : List (String × RZStats)
  schedule_data : Option (List ScheduleRow)
  league_averages : List (String × ℚ)
  data_loaded : Bool
deriving DecidableEq

/-- Embeds `NFLTDBoostCalculator.__init__` (src/main.py lines 14-33): `ValueError`
for `performance_year == 2024`, otherwise an instance with empty caches and
`data_loaded = False` — no data is fetched during construction (the `try`
block only logs). -/
def initCalculator (performance_year : Int) : Except String CalculatorState :=
  if performance_year = 2024 then
    Except.error "2024 data is not allowed as performance year - this tool only works with 2025+ data"
  else
    Except.ok ⟨performance_year, [], [], none, [], false⟩

/-- The year guard at the top of `load_data` (src/main.py lines 38-40); the
rest of `load_data` performs external network fetches and is outside the
embedded core.  The `ValueError` it raises escapes the `except` clause,
which re-raises. -/
def load_data_year_guard (s : CalculatorState) : Except String Unit :=
  if s.performance_year = 2024 then
    Except.error "2024 data is explicitly blocked as performance year - this tool only works with 2025+ data"
  else
    Except.ok ()

/-- Modelled from the spec: the Market Blender (spec section 4.5) is not part
of `src/main.py` — no odds, implied-touchdown or projection code exists in
this file — so the advantage-fraction clamp is taken from the spec's words:
`clamp(total_team_td_advantage_pct / 100, -0.30, +0.30)`. -/
def clamp_advantage_fraction (pct : ℚ) : ℚ :=
  max (-(30/100)) (min (30/100) (pct / 100))

/-- Modelled from the spec: projected touchdowns =
`implied_touchdowns × (1 + 0.25 × advantage_fraction)`, rounded to 2
decimals, with the fixed 0.25 weight. -/
def projected_touchdowns (implied pct : ℚ) : ℚ :=
  round2 (implied * (1 + 25/100 * clamp_advantage_fraction pct))

theorem pctDev_eval (cur avg : ℚ) (n : ℤ) (havg : 0 < avg)
    (h : (cur - avg) / avg * 100 = (n : ℚ)) : pctDev cur avg = n := by
  unfold pctDev
  rw [if_pos havg, h, round1_intCast]

theorem devCase_none (o : Option ℚ) (avg : ℚ) (h : o = none) :
    o.map (fun c => pctDev c avg) = none := by
  rw [h]; rfl

theorem devCase_pos (o : Option ℚ) (avg c : ℚ) (h : o = some c) (hp : 0 < avg) :
    o.map (fun c => pctDev c avg) = some (round1 ((c - avg) / avg * 100)) := by
  rw [h]
  show some (pctDev c avg) = _
  unfold pctDev
  rw [if_pos hp]

theorem devCase_zero (o : Option ℚ) (avg c : ℚ) (h : o = some c) (h0 : avg = 0) :
    o.map (fun c => pctDev c avg) = some 0 := by
  subst h0
  rw [h]
  show some (pctDev c 0) = some 0
  unfold pctDev
  rw [if_neg (lt_irrefl 0), round1_zero]

/-- Example league-average values (all four families at 10.0). -/
def laEx : LeagueAveragesVals := ⟨10, 10, 10, 10⟩

/-- Example league-average values with a zero all-drives scoring average. -/
def laZeroAll : LeagueAveragesVals := ⟨10, 10, 0, 10⟩

/-- Snapshot where team B has defensive rates only (red zone 12.0, all
drives 11.0): both defensive deviations vs `laEx` are positive. -/
def cdDefBoth : CurrentData :=
  ⟨fun _ => none, fun t => if t = "B" then some 12 else none,
   fun _ => none, fun t => if t = "B" then some 11 else none⟩

/-- Snapshot where team KC has an offensive red-zone rate only. -/
def cdOffOnly : CurrentData :=
  ⟨fun t => if t = "KC" then some 12 else none, fun _ => none,
   fun _ => none, fun _ => none⟩

/-- Snapshot for the deviation-family cases: KC has offensive red-zone and
all-drives rates, nothing else. -/
def cdMix : CurrentData :=
  ⟨fun t => if t = "KC" then some 12 else none, fun _ => none,
   fun t => if t = "KC" then some 7 else none, fun _ => none⟩

/-- C1 counterexample: team B allows touchdowns at +20% (red zone) and +10%
(all drives) above league average, yet `defense_combined_pct_change` is the
plain average +15, not the negated −15 the claim requires. -/
theorem C1_counterexample :
    (calculate_matchup_boosts cdDefBoth laEx "A" "B").defense_rz_pct_change = some 20 ∧
    (calculate_matchup_boosts cdDefBoth laEx "A" "B").defense_all_pct_change = some 10 ∧
    (calculate_matchup_boosts cdDefBoth laEx "A" "B").defense_combined_pct_change = some 15 ∧
    (calculate_matchup_boosts cdDefBoth laEx "A" "B").defense_combined_pct_change ≠ some (-15) := by
  have h1 : pctDev 12 10 = 20 := pctDev_eval 12 10 20 (by norm_num) (by norm_num)
  have h2 : pctDev 11 10 = 10 := pctDev_eval 11 10 10 (by norm_num) (by norm_num)
  have h3 : round1 ((20 + 10 : ℚ) / 2) = 15 := by
    rw [show ((20 + 10 : ℚ) / 2) = ((15 : ℤ) : ℚ) by norm_num, round1_intCast]
    norm_num
  refine ⟨?_, ?_, ?_, ?_⟩ <;>
    simp [calculate_matchup_boosts, cdDefBoth, laEx, combinePair, h1, h2, h3]
  all_goals norm_num

/-- C1 (amended): `defense_combined_pct_change` is the (rounded) average of
the two defensive deviations when both are present and the single present
one otherwise, with NO sign inversion — a defense allowing touchdowns above
league average contributes positively; consequently the total advantage is
monotone nondecreasing in the defensive combined value. -/
theorem C1_defense_combined_amended (cd : CurrentData) (la : LeagueAveragesVals)
    (ot dt : String) :
    ((calculate_matchup_boosts cd la ot dt).defense_combined_pct_change =
      combinePair (calculate_matchup_boosts cd la ot dt).defense_rz_pct_change
        (calculate_matchup_boosts cd la ot dt).defense_all_pct_change) ∧
    (∀ x y, (calculate_matchup_boosts cd la ot dt).defense_rz_pct_change = some x →
      (calculate_matchup_boosts cd la ot dt).defense_all_pct_change = some y →
      (calculate_matchup_boosts cd la ot dt).defense_combined_pct_change =
        some (round1 ((x + y) / 2))) ∧
    (∀ x, (calculate_matchup_boosts cd la ot dt).defense_rz_pct_change = some x →
      (calculate_matchup_boosts cd la ot dt).defense_all_pct_change = none →
      (calculate_matchup_boosts cd la ot dt).defense_combined_pct_change = some x) ∧
    (∀ y, (calculate_matchup_boosts cd la ot dt).defense_rz_pct_change = none →
      (calculate_matchup_boosts cd la ot dt).defense_all_pct_change = some y →
      (calculate_matchup_boosts cd la ot dt).defense_combined_pct_change = some y) ∧
    (∀ o d d' z z', d ≤ d' →
      totalFromCombined (some o) (some d) = some z →
      totalFromCombined (some o) (some d') = some z' → z ≤ z') := by
  have h0 : (calculate_matchup_boosts cd la ot dt).defense_combined_pct_change =
      combinePair (calculate_matchup_boosts cd la ot dt).defense_rz_pct_change
        (calculate_matchup_boosts cd la ot dt).defense_all_pct_change := rfl
  refine ⟨h0, ?_, ?_, ?_, ?_⟩
  · intro x y hx hy
    rw [h0, hx, hy]
    rfl
  · intro x hx hy
    rw [h0, hx, hy]
    rfl
  · intro y hx hy
    rw [h0, hx, hy]
    rfl
  · intro o d d' z z' hdd hz hz'
    simp only [totalFromCombined, Option.some.injEq] at hz hz'
    rw [← hz, ← hz']
    exact round1_mono (by linarith)

/-- Witness for `C1_defense_combined_amended` at concrete inputs. -/
theorem C1_amended_witness :
    (calculate_matchup_boosts cdDefBoth laEx "A" "B").defense_combined_pct_change =
      some (round1 ((20 + 10) / 2)) := by
  have h := C1_defense_combined_amended cdDefBoth laEx "A" "B"
  refine h.2.1 20 10 ?_ ?_
  · show (some (pctDev 12 10) : Option ℚ) = some 20
    rw [pctDev_eval 12 10 20 (by norm_num) (by norm_num)]
    norm_num
  · show (some (pctDev 11 10) : Option ℚ) = some 10
    rw [pctDev_eval 11 10 10 (by norm_num) (by norm_num)]
    norm_num

/-- C2 counterexample: with only the offensive side present (combined +20)
the code sets `total_team_td_advantage_pct` to the HALVED value 10.0, not
the direct value 20.0 the claim requires. -/
theorem C2_counterexample :
    (calculate_matchup_boosts cdOffOnly laEx "KC" "DEN").offense_combined_pct_change = some 20 ∧
    (calculate_matchup_boosts cdOffOnly laEx "KC" "DEN").defense_combined_pct_change = none ∧
    (calculate_matchup_boosts cdOffOnly laEx "KC" "DEN").total_team_td_advantage_pct = some 10 ∧
    (calculate_matchup_boosts cdOffOnly laEx "KC" "DEN").total_team_td_advantage_pct ≠ some 20 := by
  have h1 : pctDev 12 10 = 20 := pctDev_eval 12 10 20 (by norm_num) (by norm_num)
  have h2 : round1 ((20 : ℚ) / 2) = 10 := by
    rw [show ((20 : ℚ) / 2) = ((10 : ℤ) : ℚ) by norm_num, round1_intCast]
    norm_num
  refine ⟨?_, ?_, ?_, ?_⟩ <;>
    simp [calculate_matchup_boosts, cdOffOnly, laEx, combinePair, totalFromCombined, h1, h2]

/-- C2 (amended): the total advantage is the rounded average of the two
combined values when both are present, the rounded HALF of the present one
when exactly one is present, and null when both are absent. -/
theorem C2_total_advantage_amended (cd : CurrentData) (la : LeagueAveragesVals)
    (ot dt : String) :
    ((calculate_matchup_boosts cd la ot dt).total_team_td_advantage_pct =
      totalFromCombined (calculate_matchup_boosts cd la ot dt).offense_combined_pct_change
        (calculate_matchup_boosts cd la ot dt).defense_combined_pct_change) ∧
    (∀ x y, (calculate_matchup_boosts cd la ot dt).offense_combined_pct_change = some x →
      (calculate_matchup_boosts cd la ot dt).defense_combined_pct_change = some y →
      (calculate_matchup_boosts cd la ot dt).total_team_td_advantage_pct =
        some (round1 ((x + y) / 2))) ∧
    (∀ x, (calculate_matchup_boosts cd la ot dt).offense_combined_pct_change = some x →
      (calculate_matchup_boosts cd la ot dt).defense_combined_pct_change = none →
      (calculate_matchup_boosts cd la ot dt).total_team_td_advantage_pct =
        some (round1 (x / 2))) ∧
    (∀ y, (calculate_matchup_boosts cd la ot dt).offense_combined_pct_change = none →
      (calculate_matchup_boosts cd la ot dt).defense_combined_pct_change = some y →
      (calculate_matchup_boosts cd la ot dt).total_team_td_advantage_pct =
        some (round1 (y / 2))) ∧
    ((calculate_matchup_boosts cd la ot dt).offense_combined_pct_change = none →
      (calculate_matchup_boosts cd la ot dt).defense_combined_pct_change = none →
      (calculate_matchup_boosts cd la ot dt).total_team_td_advantage_pct = none) := by
  have h0 : (calculate_matchup_boosts cd la ot dt).total_team_td_advantage_pct =
      totalFromCombined (calculate_matchup_boosts cd la ot dt).offense_combined_pct_change
        (calculate_matchup_boosts cd la ot dt).defense_combined_pct_change := rfl
  refine ⟨h0, ?_, ?_, ?_, ?_⟩
  · intro x y hx hy
    rw [h0, hx, hy]
    rfl
  · intro x hx hy
    rw [h0, hx, hy]
    rfl
  · intro y hx hy
    rw [h0, hx, hy]
    rfl
  · intro hx hy
    rw [h0, hx, hy]
    rfl

/-- Witness for `C2_total_advantage_amended` (single-sided case halves). -/
theorem C2_amended_witness :
    (calculate_matchup_boosts cdOffOnly laEx "KC" "DEN").total_team_td_advantage_pct =
      some (round1 (20 / 2)) := by
  have h := C2_total_advantage_amended cdOffOnly laEx "KC" "DEN"
  refine h.2.2.1 20 ?_ ?_
  · show combinePair (some (pctDev 12 10)) none = some 20
    rw [pctDev_eval 12 10 20 (by norm_num) (by norm_num)]
    norm_num [combinePair]
  · rfl

/-- C5 (confirmed): each of the four deviation families is
`round((cur - avg)/avg*100, 1)` when the team is in the snapshot and the
league average is positive, null when the team is absent, and 0 (not null)
when the team is present but the league average is 0; the lookup is total,
and each family depends only on its own snapshot entry, so a missing team
never aborts the remaining fields. -/
theorem C5_deviation_families (cd : CurrentData) (la : LeagueAveragesVals)
    (ot dt : String) :
    ((cd.offense_rz ot = none →
      (calculate_matchup_boosts cd la ot dt).offense_rz_pct_change = none) ∧
     (∀ c, cd.offense_rz ot = some c → 0 < la.rz_scoring →
      (calculate_matchup_boosts cd la ot dt).offense_rz_pct_change =
        some (round1 ((c - la.rz_scoring) / la.rz_scoring * 100))) ∧
     (∀ c, cd.offense_rz ot = some c → la.rz_scoring = 0 →
      (calculate_matchup_boosts cd la ot dt).offense_rz_pct_change = some 0)) ∧
    ((cd.defense_rz dt = none →
      (calculate_matchup_boosts cd la ot dt).defense_rz_pct_change = none) ∧
     (∀ c, cd.defense_rz dt = some c → 0 < la.rz_allow →
      (calculate_matchup_boosts cd la ot dt).defense_rz_pct_change =
        some (round1 ((c - la.rz_allow) / la.rz_allow * 100))) ∧
     (∀ c, cd.defense_rz dt = some c → la.rz_allow = 0 →
      (calculate_matchup_boosts cd la ot dt).defense_rz_pct_change = some 0)) ∧
    ((cd.offense_all ot = none →
      (calculate_matchup_boosts cd la ot dt).offense_all_pct_change = none) ∧
     (∀ c, cd.offense_all ot = some c → 0 < la.all_drives_scoring →
      (calculate_matchup_boosts cd la ot dt).offense_all_pct_change =
        some (round1 ((c - la.all_drives_scoring) / la.all_drives_scoring * 100))) ∧
     (∀ c, cd.offense_all ot = some c → la.all_drives_scoring = 0 →
      (calculate_matchup_boosts cd la ot dt).offense_all_pct_change = some 0)) ∧
    ((cd.defense_all dt = none →
      (calculate_matchup_boosts cd la ot dt).defense_all_pct_change = none) ∧
     (∀ c, cd.defense_all dt = some c → 0 < la.all_drives_allow →
      (calculate_matchup_boosts cd la ot dt).defense_all_pct_change =
        some (round1 ((c - la.all_drives_allow) / la.all_drives_allow * 100))) ∧
     (∀ c, cd.defense_all dt = some c → la.all_drives_allow = 0 →
      (calculate_matchup_boosts cd la ot dt).defense_all_pct_change = some 0)) := by
  refine ⟨⟨?_, ?_, ?_⟩, ⟨?_, ?_, ?_⟩, ⟨?_, ?_, ?_⟩, ⟨?_, ?_, ?_⟩⟩
  · intro h; exact devCase_none _ _ h
  · intro c hc hp; exact devCase_pos _ _ c hc hp
  · intro c hc h0; exact devCase_zero _ _ c hc h0
  · intro h; exact devCase_none _ _ h
  · intro c hc hp; exact devCase_pos _ _ c hc hp
  · intro c hc h0; exact devCase_zero _ _ c hc h0
  · intro h; exact devCase_none _ _ h
  · intro c hc hp; exact devCase_pos _ _ c hc hp
  · intro c hc h0; exact devCase_zero _ _ c hc h0
  · intro h; exact devCase_none _ _ h
  · intro c hc hp; exact devCase_pos _ _ c hc hp
  · intro c hc h0; exact devCase_zero _ _ c hc h0

/-- Witness for `C5_deviation_families`: team KC present with a positive
red-zone league average, absent defensively, and present over a zero
all-drives league average. -/
theorem C5_witness :
    (calculate_matchup_boosts cdMix laZeroAll "KC" "DEN").offense_rz_pct_change =
      some (round1 ((12 - 10) / 10 * 100)) ∧
    (calculate_matchup_boosts cdMix laZeroAll "KC" "DEN").defense_rz_pct_change = none ∧
    (calculate_matchup_boosts cdMix laZeroAll "KC" "DEN").offense_all_pct_change = some 0 := by
  have h := C5_deviation_families cdMix laZeroAll "KC" "DEN"
  refine ⟨h.1.2.1 12 ?_ (by norm_num [laZeroAll]), h.2.1.1 rfl, h.2.2.1.2.2 7 ?_ rfl⟩
  · rfl
  · rfl

/-- C6 (confirmed, modelled from the spec): the advantage fraction is
`total_team_td_advantage_pct / 100` clamped to `[-0.30, +0.30]` (45% caps to
0.30, −50% to −0.30, and the fraction is always inside the band), and the
projected touchdown count is `implied × (1 + 0.25 × fraction)` rounded to 2
decimals — e.g. 2.50 implied touchdowns at +20% project to 2.62. -/
theorem C6_market_blend (implied pct : ℚ) :
    clamp_advantage_fraction 45 = 30/100 ∧
    clamp_advantage_fraction (-50) = -(30/100) ∧
    -(30/100) ≤ clamp_advantage_fraction pct ∧
    clamp_advantage_fraction pct ≤ 30/100 ∧
    projected_touchdowns implied pct =
      round2 (implied * (1 + 25/100 * clamp_advantage_fraction pct)) ∧
    projected_touchdowns (5/2) 20 = 131/50 := by
  refine ⟨?_, ?_, le_max_left _ _, ?_, rfl, ?_⟩
  · unfold clamp_advantage_fraction
    norm_num
  · unfold clamp_advantage_fraction
    norm_num
  · unfold clamp_advantage_fraction
    exact max_le (by norm_num) (min_le_left _ _)
  · unfold projected_touchdowns clamp_advantage_fraction round2 rhe
    norm_num

/-- C9 (confirmed): `get_week_matchups` returns exactly the schedule rows of
the requested week, converted to matchup records; a week with no rows gives
the empty list as a valid (non-error) result. -/
theorem C9_week_matchups (sched : List ScheduleRow) (w : Nat) :
    get_week_matchups sched w =
      (sched.filter (fun g => g.week == w)).map matchupOfRow ∧
    (get_week_matchups sched w).length =
      (sched.filter (fun g => g.week == w)).length ∧
    (sched.filter (fun g => g.week == w) = [] → get_week_matchups sched w = []) := by
  have hmain : get_week_matchups sched w =
      (sched.filter (fun g => g.week == w)).map matchupOfRow := by
    unfold get_week_matchups
    by_cases h : (sched.filter (fun g => g.week == w)).isEmpty
    · rw [if_pos h, List.isEmpty_iff.mp h, List.map_nil]
    · rw [if_neg h]
  exact ⟨hmain, by rw [hmain, List.length_map],
    fun h => by rw [hmain, h, List.map_nil]⟩

/-- Witness for `C9_week_matchups` on an empty schedule. -/
theorem C9_week_matchups_witness : get_week_matchups [] 3 = [] :=
  (C9_week_matchups [] 3).2.2 rfl

/-- C10 (confirmed): constructing the calculator with performance year 2024
raises `ValueError` (and the `load_data` year guard re-raises for the same
value), while any other year yields an instance with empty caches and
`data_loaded = False`; construction fetches no data. -/
theorem C10_init_blocks_2024 (y : Int) (hy : y ≠ 2024) :
    initCalculator 2024 =
      Except.error "2024 data is not allowed as performance year - this tool only works with 2025+ data" ∧
    initCalculator y = Except.ok ⟨y, [], [], none, [], false⟩ ∧
    (∀ s : CalculatorState, s.performance_year = 2024 →
      load_data_year_guard s =
        Except.error "2024 data is explicitly blocked as performance year - this tool only works with 2025+ data") ∧
    (∀ (y2 : Int) (s : CalculatorState), initCalculator y2 = Except.ok s →
      s.data_loaded = false ∧ s.baselines_2024 = [] ∧ s.current_data = [] ∧
      s.schedule_data = none ∧ s.league_averages = []) := by
  refine ⟨rfl, ?_, ?_, ?_⟩
  · unfold initCalculator
    rw [if_neg hy]
  · intro s hs
    unfold load_data_year_guard
    rw [if_pos hs]
  · intro y2 s h
    unfold initCalculator at h
    by_cases h2 : y2 = 2024
    · rw [if_pos h2] at h
      exact absurd h (by simp)
    · rw [if_neg h2] at h
      simp only [Except.ok.injEq] at h
      subst h
      exact ⟨rfl, rfl, rfl, rfl, rfl⟩

/-- Witness for `C10_init_blocks_2024` at year 2025. -/
theorem C10_witness :
    initCalculator 2025 = Except.ok ⟨2025, [], [], none, [], false⟩ :=
  (C10_init_blocks_2024 2025 (by decide)).2.1

/-- C8 (confirmed): with a week column present, both aggregation functions
drop `week > 18` plays exactly when the year label is the baseline label
`"2024"` — prepending a playoff play changes nothing then — and aggregate
the full unfiltered table for every other label. -/
theorem C8_week_filter (df : List Play) (year_label t : String) (p : Play) :
    (rz_offense_stats df "2024" t =
       rzStatsOf (offTeamRZ (rzPlays (df.filter (fun q => q.week ≤ 18))) t) ∧
     rz_defense_stats df "2024" t =
       rzStatsOf (defTeamRZ (rzPlays (df.filter (fun q => q.week ≤ 18))) t) ∧
     all_drives_offense_stats df "2024" t =
       allStatsOfKeys
         ((allOffKeys (df.filter (fun q => q.week ≤ 18))).filter (fun k => k.2.1 = t))
         (offGroupTD (df.filter (fun q => q.week ≤ 18))) ∧
     all_drives_defense_stats df "2024" t =
       allStatsOfKeys
         ((allDefKeys (df.filter (fun q => q.week ≤ 18))).filter (fun k => k.2.1 = t))
         (defGroupTD (df.filter (fun q => q.week ≤ 18)))) ∧
    (18 < p.week →
      rz_offense_stats (p :: df) "2024" t = rz_offense_stats df "2024" t ∧
      rz_defense_stats (p :: df) "2024" t = rz_defense_stats df "2024" t ∧
      all_drives_offense_stats (p :: df) "2024" t = all_drives_offense_stats df "2024" t ∧
      all_drives_defense_stats (p :: df) "2024" t = all_drives_defense_stats df "2024" t) ∧
    (year_label ≠ "2024" →
      rz_offense_stats df year_label t = rzStatsOf (offTeamRZ (rzPlays df) t) ∧
      rz_defense_stats df year_label t = rzStatsOf (defTeamRZ (rzPlays df) t) ∧
      all_drives_offense_stats df year_label t =
        allStatsOfKeys ((allOffKeys df).filter (fun k => k.2.1 = t)) (offGroupTD df) ∧
      all_drives_defense_stats df year_label t =
        allStatsOfKeys ((allDefKeys df).filter (fun k => k.2.1 = t)) (defGroupTD df)) := by
  have h2024 : regSeason df "2024" = df.filter (fun q => q.week ≤ 18) := by
    unfold regSeason
    rw [if_pos rfl]
  refine ⟨?_, ?_, ?_⟩
  · unfold rz_offense_stats rz_defense_stats all_drives_offense_stats all_drives_defense_stats
    rw [h2024]
    exact ⟨rfl, rfl, rfl, rfl⟩
  · intro hp
    have hfalse : (decide (p.week ≤ 18)) = false := by
      simp
      omega
    have hcons : regSeason (p :: df) "2024" = regSeason df "2024" := by
      unfold regSeason
      rw [if_pos rfl, if_pos rfl, List.filter_cons, hfalse]
      simp
    unfold rz_offense_stats rz_defense_stats all_drives_offense_stats all_drives_defense_stats
    rw [hcons]
    exact ⟨rfl, rfl, rfl, rfl⟩
  · intro hl
    have hid : regSeason df year_label = df := by
      unfold regSeason
      rw [if_neg hl]
    unfold rz_offense_stats rz_defense_stats all_drives_offense_stats all_drives_defense_stats
    rw [hid]
    exact ⟨rfl, rfl, rfl, rfl⟩

/-- Witness for `C8_week_filter`: a week-19 play and the label "2025". -/
theorem C8_week_filter_witness :
    rz_offense_stats [⟨"g", some "A", some "B", some 1, 10, 0, 19⟩] "2024" "A" =
      rz_offense_stats [] "2024" "A" ∧
    rz_offense_stats [⟨"g", some "A", some "B", some 1, 10, 0, 19⟩] "2025" "A" =
      rzStatsOf (offTeamRZ (rzPlays [⟨"g", some "A", some "B", some 1, 10, 0, 19⟩]) "A") := by
  have h := C8_week_filter ([] : List Play) "2025" "A" ⟨"g", some "A", some "B", some 1, 10, 0, 19⟩
  have h2 := C8_week_filter [⟨"g", some "A", some "B", some 1, 10, 0, 19⟩] "2025" "A"
      ⟨"g", some "A", some "B", some 1, 10, 0, 19⟩
  exact ⟨(h.2.1 (by decide)).1, (h2.2.2 (by simp)).1⟩

theorem regSeason_mem {df : List Play} {label : String} {p : Play}
    (h : p ∈ regSeason df label) : p ∈ df := by
  unfold regSeason at h
  by_cases hl : label = "2024"
  · rw [if_pos hl] at h
    exact (List.mem_filter.mp h).1
  · rw [if_neg hl] at h
    exact h

/-- Maximum-of-flags characterisation for any boolean group selector. -/
theorem groupTD_char {df : List Play}
    (hbin : ∀ p ∈ df, p.touchdown = 0 ∨ p.touchdown = 1)
    (q : Play → Bool) (hex : ∃ p ∈ df, q p = true) :
    (listMaxD ((df.filter q).map (fun p => p.touchdown)) = 0 ∨
     listMaxD ((df.filter q).map (fun p => p.touchdown)) = 1) ∧
    (listMaxD ((df.filter q).map (fun p => p.touchdown)) = 1 ↔
     ∃ p ∈ df, q p = true ∧ p.touchdown = 1) := by
  obtain ⟨p0, hp0, hq0⟩ := hex
  have hne : (df.filter q).map (fun p => p.touchdown) ≠ [] := by
    intro hcon
    have hmem : p0 ∈ df.filter q := List.mem_filter.mpr ⟨hp0, hq0⟩
    have : p0.touchdown ∈ (df.filter q).map (fun p => p.touchdown) :=
      List.mem_map.mpr ⟨p0, hmem, rfl⟩
    rw [hcon] at this
    cases this
  have hb : ∀ x ∈ (df.filter q).map (fun p => p.touchdown), x = 0 ∨ x = 1 := by
    intro x hx
    obtain ⟨p, hpmem, rfl⟩ := List.mem_map.mp hx
    exact hbin p (List.mem_filter.mp hpmem).1
  have h := listMaxD_binary hne hb
  refine ⟨h.1, ?_⟩
  rw [h.2]
  constructor
  · intro h1
    obtain ⟨p, hp, hpt⟩ := List.mem_map.mp h1
    exact ⟨p, (List.mem_filter.mp hp).1, (List.mem_filter.mp hp).2, hpt⟩
  · rintro ⟨p, hp, hq, ht⟩
    exact List.mem_map.mpr ⟨p, List.mem_filter.mpr ⟨hp, hq⟩, ht⟩

/-- C7 (confirmed): every retained `(game, team, drive)` group reduces to a
0/1 outcome, equal to 1 exactly when some play of the group carries the
touchdown flag (the max of binary flags); per-team touchdown counts sum
these outcomes over the drive-key set, so each drive contributes at most
one touchdown and exactly one drive-count unit — in particular a team's
touchdown count never exceeds its drive count. -/
theorem C7_drive_outcome (df : List Play)
    (hbin : ∀ p ∈ df, p.touchdown = 0 ∨ p.touchdown = 1) :
    (∀ k ∈ allOffKeys df,
      (offGroupTD df k = 0 ∨ offGroupTD df k = 1) ∧
      (offGroupTD df k = 1 ↔ ∃ p ∈ df, playOffKey p = some k ∧ p.touchdown = 1)) ∧
    (∀ k ∈ allDefKeys df,
      (defGroupTD df k = 0 ∨ defGroupTD df k = 1) ∧
      (defGroupTD df k = 1 ↔ ∃ p ∈ df, playDefKey p = some k ∧ p.touchdown = 1)) ∧
    (∀ l : List Play, (∀ p ∈ l, p ∈ df) → ∀ k ∈ rzSummaryKeys l,
      driveTD (filteredDrives l) k = 0 ∨ driveTD (filteredDrives l) k = 1) ∧
    (∀ label t s, all_drives_offense_stats df label t = some s → s.tds ≤ s.drives) := by
  refine ⟨?_, ?_, ?_, ?_⟩
  · intro k hk
    have hex : ∃ p ∈ df, (fun p => decide (playOffKey p = some k)) p = true := by
      rw [allOffKeys, List.mem_toFinset] at hk
      obtain ⟨p, hp, hkey⟩ := List.mem_filterMap.mp hk
      exact ⟨p, hp, by simp [hkey]⟩
    have h := groupTD_char hbin _ hex
    refine ⟨h.1, ?_⟩
    rw [offGroupTD, h.2]
    simp only [decide_eq_true_eq]
  · intro k hk
    have hex : ∃ p ∈ df, (fun p => decide (playDefKey p = some k)) p = true := by
      rw [allDefKeys, List.mem_toFinset] at hk
      obtain ⟨p, hp, hkey⟩ := List.mem_filterMap.mp hk
      exact ⟨p, hp, by simp [hkey]⟩
    have h := groupTD_char hbin _ hex
    refine ⟨h.1, ?_⟩
    rw [defGroupTD, h.2]
    simp only [decide_eq_true_eq]
  · intro l hsub k hk
    have hbin2 : ∀ p ∈ filteredDrives l, p.touchdown = 0 ∨ p.touchdown = 1 := by
      intro p hp
      exact hbin p (hsub p (List.mem_filter.mp hp).1)
    have hex : ∃ p ∈ filteredDrives l, (fun p => decide (playDriveKey p = some k)) p = true := by
      rw [rzSummaryKeys, driveKeySet, List.mem_toFinset] at hk
      obtain ⟨p, hp, hkey⟩ := List.mem_filterMap.mp hk
      exact ⟨p, hp, by simp [hkey]⟩
    exact (groupTD_char hbin2 _ hex).1
  · intro label t s hs
    have hbin2 : ∀ p ∈ regSeason df label, p.touchdown = 0 ∨ p.touchdown = 1 :=
      fun p hp => hbin p (regSeason_mem hp)
    unfold all_drives_offense_stats allStatsOfKeys at hs
    by_cases hc : ((allOffKeys (regSeason df label)).filter (fun k => k.2.1 = t)).card = 0
    · rw [if_pos hc] at hs
      exact absurd hs (by simp)
    · rw [if_neg hc] at hs
      simp only [Option.some.injEq] at hs
      rw [← hs]
      dsimp only
      refine le_trans (Finset.sum_le_card_nsmul _ _ 1 ?_) (by simp)
      intro k hk
      have hk2 : k ∈ allOffKeys (regSeason df label) := (Finset.mem_filter.mp hk).1
      have hex : ∃ p ∈ regSeason df label,
          (fun p => decide (playOffKey p = some k)) p = true := by
        rw [allOffKeys, List.mem_toFinset] at hk2
        obtain ⟨p, hp, hkey⟩ := List.mem_filterMap.mp hk2
        exact ⟨p, hp, by simp [hkey]⟩
      have h := (groupTD_char hbin2 _ hex).1
      rcases h with h | h
      · rw [offGroupTD]
        omega
      · rw [offGroupTD]
        omega

/-- Two-play example drive with one scoring play. -/
def dfC7 : List Play :=
  [⟨"g", some "A", some "B", some 1, 50, 0, 1⟩, ⟨"g", some "A", some "B", some 1, 40, 1, 1⟩]

/-- Witness for `C7_drive_outcome`: the example drive's outcome is 1. -/
theorem C7_drive_outcome_witness : offGroupTD dfC7 ("g", "A", 1) = 1 := by
  have h := C7_drive_outcome dfC7 (by decide)
  refine ((h.1 ("g", "A", 1) (by decide)).2).mpr ?_
  exact ⟨⟨"g", some "A", some "B", some 1, 40, 1, 1⟩, by decide, by decide, rfl⟩

theorem playDriveKey_eq_some {p : Play} {g : String} {d : Nat} :
    playDriveKey p = some (g, d) ↔ p.game_id = g ∧ p.fixed_drive = some d := by
  unfold playDriveKey
  cases h : p.fixed_drive with
  | none => simp
  | some a => simp [h, Prod.ext_iff, eq_comm]

/-- Number of qualifying red-zone plays of the `(game, posteam, drive)`
group: plays at yard line ≤ 20 with that game, offense team and drive id. -/
def offQualCount (df : List Play) (t g : String) (d : Nat) : Nat :=
  df.countP (fun p =>
    decide (p.game_id = g ∧ p.posteam = some t ∧ p.fixed_drive = some d ∧ p.yardline_100 ≤ 20))

/-- Number of qualifying red-zone plays of the `(game, defteam, drive)`
group. -/
def defQualCount (df : List Play) (t g : String) (d : Nat) : Nat :=
  df.countP (fun p =>
    decide (p.game_id = g ∧ p.defteam = some t ∧ p.fixed_drive = some d ∧ p.yardline_100 ≤ 20))

/-- Number of qualifying red-zone plays of the whole `(game, drive)` group,
regardless of team. -/
def rzGroupCount (df : List Play) (g : String) (d : Nat) : Nat :=
  df.countP (fun p =>
    decide (p.game_id = g ∧ p.fixed_drive = some d ∧ p.yardline_100 ≤ 20))

theorem countP_regSeason_le (df : List Play) (label : String) (q : Play → Bool) :
    (regSeason df label).countP q ≤ df.countP q := by
  unfold regSeason
  by_cases h : label = "2024"
  · rw [if_pos h, List.countP_filter]
    refine List.countP_mono_left ?_
    intro a _ ha
    simp only [Bool.and_eq_true] at ha
    exact ha.1
  · rw [if_neg h]

theorem keyCount_off_le (df : List Play) (label t g : String) (d : Nat) :
    keyCount (offTeamRZ (rzPlays (regSeason df label)) t) (g, d) ≤ offQualCount df t g d := by
  unfold keyCount offTeamRZ rzPlays offQualCount
  rw [List.countP_filter, List.countP_filter]
  refine le_trans (List.countP_mono_left ?_) (countP_regSeason_le df label
    (fun p => decide (p.game_id = g ∧ p.posteam = some t ∧ p.fixed_drive = some d ∧
      p.yardline_100 ≤ 20)))
  intro a _ ha
  simp only [Bool.and_eq_true, decide_eq_true_eq, playDriveKey_eq_some] at ha
  simp only [decide_eq_true_eq]
  tauto

theorem keyCount_def_le (df : List Play) (label t g : String) (d : Nat) :
    keyCount (defTeamRZ (rzPlays (regSeason df label)) t) (g, d) ≤ defQualCount df t g d := by
  unfold keyCount defTeamRZ rzPlays defQualCount
  rw [List.countP_filter, List.countP_filter]
  refine le_trans (List.countP_mono_left ?_) (countP_regSeason_le df label
    (fun p => decide (p.game_id = g ∧ p.defteam = some t ∧ p.fixed_drive = some d ∧
      p.yardline_100 ≤ 20)))
  intro a _ ha
  simp only [Bool.and_eq_true, decide_eq_true_eq, playDriveKey_eq_some] at ha
  simp only [decide_eq_true_eq]
  tauto

theorem mem_summary_count {l : List Play} {k : String × Nat}
    (h : k ∈ rzSummaryKeys l) : 1 < keyCount l k := by
  unfold rzSummaryKeys driveKeySet at h
  rw [List.mem_toFinset] at h
  obtain ⟨p, hp, hkey⟩ := List.mem_filterMap.mp h
  unfold filteredDrives at hp
  have hin := (List.mem_filter.mp hp).2
  unfold inMulti at hin
  rw [hkey] at hin
  simp only [Option.elim, decide_eq_true_eq] at hin
  exact (Finset.mem_filter.mp hin).2

theorem pool_off_count {df : List Play} {g t : String} {d : Nat}
    (h : (g, t, d) ∈ leaguePoolOff (rzPlays (leagueReg df))) :
    2 ≤ offQualCount df t g d := by
  unfold leaguePoolOff at h
  rw [Finset.mem_biUnion] at h
  obtain ⟨g', hg', h⟩ := h
  rw [Finset.mem_biUnion] at h
  obtain ⟨t', ht', h⟩ := h
  rw [Finset.mem_image] at h
  obtain ⟨d', hd', heq⟩ := h
  obtain ⟨hg, ht, hd⟩ : g' = g ∧ t' = t ∧ d' = d :=
    ⟨congrArg Prod.fst heq, congrArg (fun x => x.2.1) heq, congrArg (fun x => x.2.2) heq⟩
  subst hg
  subst ht
  subst hd
  rw [qualDrives, Finset.mem_filter] at hd'
  refine le_trans hd'.2 ?_
  unfold teamGameRZ rzPlays leagueReg offQualCount
  rw [List.countP_filter, List.countP_filter, List.countP_filter]
  refine List.countP_mono_left ?_
  intro a _ ha
  simp only [Bool.and_eq_true, decide_eq_true_eq] at ha
  simp only [decide_eq_true_eq]
  tauto

theorem pool_def_count {df : List Play} {g t : String} {d : Nat}
    (h : (g, t, d) ∈ leaguePoolDef (rzPlays (leagueReg df))) :
    2 ≤ defQualCount df t g d := by
  unfold leaguePoolDef at h
  rw [Finset.mem_biUnion] at h
  obtain ⟨g', hg', h⟩ := h
  rw [Finset.mem_biUnion] at h
  obtain ⟨t', ht', h⟩ := h
  rw [Finset.mem_image] at h
  obtain ⟨d', hd', heq⟩ := h
  obtain ⟨hg, ht, hd⟩ : g' = g ∧ t' = t ∧ d' = d :=
    ⟨congrArg Prod.fst heq, congrArg (fun x => x.2.1) heq, congrArg (fun x => x.2.2) heq⟩
  subst hg
  subst ht
  subst hd
  rw [qualDrives, Finset.mem_filter] at hd'
  refine le_trans hd'.2 ?_
  unfold teamGameRZDef rzPlays leagueReg defQualCount
  rw [List.countP_filter, List.countP_filter, List.countP_filter]
  refine List.countP_mono_left ?_
  intro a _ ha
  simp only [Bool.and_eq_true, decide_eq_true_eq] at ha
  simp only [decide_eq_true_eq]
  tauto

theorem offQual_le_group (df : List Play) (t g : String) (d : Nat) :
    offQualCount df t g d ≤ rzGroupCount df g d := by
  unfold offQualCount rzGroupCount
  refine List.countP_mono_left ?_
  intro a _ ha
  simp only [decide_eq_true_eq] at ha ⊢
  tauto

theorem defQual_le_group (df : List Play) (t g : String) (d : Nat) :
    defQualCount df t g d ≤ rzGroupCount df g d := by
  unfold defQualCount rzGroupCount
  refine List.countP_mono_left ?_
  intro a _ ha
  simp only [decide_eq_true_eq] at ha ⊢
  tauto

/-- C4 (confirmed): a `(game, team, drive)` group with fewer than 2 plays at
yard line ≤ 20 (drive id present) is excluded from the red-zone aggregation:
it is not a drive of the team's offense (resp. defense) `drive_summary` for
any year label, and not an entry of the league-average red-zone pools; a
`(game, drive)` group with fewer than 2 qualifying plays overall is excluded
everywhere for every team.  Drive counts and touchdown sums both range over
the summary keys, so exclusion removes the drive from denominator and
numerator alike. -/
theorem C4_two_play_filter (df : List Play) (label t g : String) (d : Nat) :
    (offQualCount df t g d < 2 →
      (g, d) ∉ rzSummaryKeys (offTeamRZ (rzPlays (regSeason df label)) t) ∧
      (g, t, d) ∉ leaguePoolOff (rzPlays (leagueReg df))) ∧
    (defQualCount df t g d < 2 →
      (g, d) ∉ rzSummaryKeys (defTeamRZ (rzPlays (regSeason df label)) t) ∧
      (g, t, d) ∉ leaguePoolDef (rzPlays (leagueReg df))) ∧
    (rzGroupCount df g d < 2 →
      (g, d) ∉ rzSummaryKeys (offTeamRZ (rzPlays (regSeason df label)) t) ∧
      (g, d) ∉ rzSummaryKeys (defTeamRZ (rzPlays (regSeason df label)) t) ∧
      (g, t, d) ∉ leaguePoolOff (rzPlays (leagueReg df)) ∧
      (g, t, d) ∉ leaguePoolDef (rzPlays (leagueReg df))) := by
  have hoff : offQualCount df t g d < 2 →
      (g, d) ∉ rzSummaryKeys (offTeamRZ (rzPlays (regSeason df label)) t) ∧
      (g, t, d) ∉ leaguePoolOff (rzPlays (leagueReg df)) := by
    intro hq
    constructor
    · intro hmem
      have h1 := mem_summary_count hmem
      have h2 := keyCount_off_le df label t g d
      omega
    · intro hmem
      have h1 := pool_off_count hmem
      omega
  have hdef : defQualCount df t g d < 2 →
      (g, d) ∉ rzSummaryKeys (defTeamRZ (rzPlays (regSeason df label)) t) ∧
      (g, t, d) ∉ leaguePoolDef (rzPlays (leagueReg df)) := by
    intro hq
    constructor
    · intro hmem
      have h1 := mem_summary_count hmem
      have h2 := keyCount_def_le df label t g d
      omega
    · intro hmem
      have h1 := pool_def_count hmem
      omega
  refine ⟨hoff, hdef, ?_⟩
  intro hq
  have h1 := offQual_le_group df t g d
  have h2 := defQual_le_group df t g d
  obtain ⟨ho1, ho2⟩ := hoff (by omega)
  obtain ⟨hd1, hd2⟩ := hdef (by omega)
  exact ⟨ho1, hd1, ho2, hd2⟩

/-- Single-play red-zone drive used as the C4 witness. -/
def dfC4 : List Play := [⟨"g", some "A", some "B", some 1, 15, 0, 1⟩]

/-- Witness for `C4_two_play_filter`: the lone 1-play drive at yard line 15
is in no red-zone summary and in no league pool. -/
theorem C4_two_play_filter_witness :
    ("g", 1) ∉ rzSummaryKeys (offTeamRZ (rzPlays (regSeason dfC4 "2025")) "A") ∧
    ("g", "A", 1) ∉ leaguePoolOff (rzPlays (leagueReg dfC4)) := by
  exact (C4_two_play_filter dfC4 "2025" "A" "g" 1).1 (by decide)

/-- Failing input for the defensive-pool gap: one two-play red-zone drive of
offense A against defense B.  The league-average loops iterate defending
teams from the game's `posteam` values, and B never possesses in the red
zone, so B's drive enters no defensive pool entry at all. -/
def dfC3 : List Play :=
  [⟨"g", some "A", some "B", some 1, 10, 1, 1⟩, ⟨"g", some "A", some "B", some 1, 10, 0, 1⟩]

/-- Failing input for the unguarded all-drives division: a two-play drive of
offense A whose defending team code is missing (`NaN`), so the
`(game, defteam, drive)` grouping is empty and `sum/len*100` divides by
zero. -/
def dfC3b : List Play :=
  [⟨"g2", some "A", none, some 1, 10, 1, 1⟩, ⟨"g2", some "A", none, some 1, 10, 0, 1⟩]

/-- C3 (code bug, evaluated at the failing inputs): on `dfC3` the claimed
pooled formula gives a defensive red-zone allow rate of 100.0 (one
qualifying drive, one touchdown allowed) but `calculate_league_averages`
returns 0.0 for that family (the offensive family, whose pool misses
nothing, is the expected 100.0); and on `dfC3b` the defensive all-drives
family divides by zero (`none`, a float NaN) instead of the claimed 0.0. -/
theorem C3_league_average_failing_eval :
    (calculate_league_averages dfC3).rz_allow = 0 ∧
    spec_pooled_rz_allow dfC3 = 100 ∧
    (calculate_league_averages dfC3).rz_scoring = 100 ∧
    (calculate_league_averages dfC3b).all_drives_allow = none := by
  have hPD : leaguePoolDef (rzPlays (leagueReg dfC3)) = ∅ := by decide
  have hPO : leaguePoolOff (rzPlays (leagueReg dfC3)) = {("g", "A", 1)} := by decide
  have hTDO : poolTDOff (rzPlays (leagueReg dfC3)) ("g", "A", 1) = 1 := by decide
  have hDK : allDefKeys (leagueReg dfC3b) = ∅ := by decide
  have hks : (((rzPlays (leagueReg dfC3)).filterMap playDefKey).toFinset).filter
      (fun k => 2 ≤ (rzPlays (leagueReg dfC3)).countP
        (fun p => decide (playDefKey p = some k))) = {("g", "B", 1)} := by decide
  have hTD2 : defGroupTD (rzPlays (leagueReg dfC3)) ("g", "B", 1) = 1 := by decide
  refine ⟨?_, ?_, ?_, ?_⟩
  · dsimp only [calculate_league_averages]
    rw [hPD]
    simp [round1_zero]
  · dsimp only [spec_pooled_rz_allow]
    rw [hks]
    simp only [Finset.card_singleton, Finset.sum_singleton, hTD2, Nat.cast_one]
    rw [if_pos (by norm_num)]
    rw [show ((1 : ℚ) / (1 : ℚ) * 100) = ((100 : ℕ) : ℚ) by norm_num, round1_natCast]
    norm_num
  · dsimp only [calculate_league_averages]
    rw [hPO]
    simp only [Finset.card_singleton, Finset.sum_singleton, hTDO, Nat.cast_one]
    rw [if_pos (by norm_num)]
    rw [show ((1 : ℚ) / (1 : ℚ) * 100) = ((100 : ℕ) : ℚ) by norm_num, round1_natCast]
    norm_num
  · dsimp only [calculate_league_averages]
    rw [hDK]
    simp
